import Mathlib

/-!
Verification development for the civic-stream repository
(src/scraper/legistar_scraper.py).

The Python source is shallowly embedded: JSON values become the inductive
type `JValue`, Python dictionaries become association lists, the HTTP layer
becomes an oracle function from requests to outcomes, and Python truthiness
(the behaviour of `or` and of `if x:`) is modelled explicitly.  Every
definition below is translated from the source file; theorems settle the
frozen claims about the scraper.
-/

/-- JSON values as produced by `json.load` and manipulated at run time by the
Python source.  Numbers are modelled as integers (every numeric value the
scraper manipulates, such as `MatterId` and the `limit` argument, is an
integer). -/
inductive JValue where
  | null : JValue
  | bool (b : Bool) : JValue
  | num (n : Int) : JValue
  | str (s : String) : JValue
  | arr (elems : List JValue) : JValue
  | obj (fields : List (String × JValue)) : JValue

/-- A Python dictionary with string keys, as produced by parsing a JSON
object.  Keys are assumed unique, which is what `json.load` guarantees. -/
abbrev Dict := List (String × JValue)

/-- Python `d.get(k)` restricted to returning the raw optional value:
`some v` when the key is present, `none` when absent. -/
def dget (d : Dict) (k : String) : Option JValue :=
  List.lookup k d

/-- Python `d.get(k, default)`. -/
def dgetD (d : Dict) (k : String) (default : JValue) : JValue :=
  (dget d k).getD default

/-- Python `d.get(k)` on a raw matter record: a missing key and a key holding
JSON null are both observed as `None` by the source, so both map to
`JValue.null`. -/
def rget (d : Dict) (k : String) : JValue :=
  (dget d k).getD JValue.null

/-- Python `d[k] = v`: replaces the value in place when the key exists,
otherwise appends (Python dictionaries preserve insertion order). -/
def dset (d : Dict) (k : String) (v : JValue) : Dict :=
  if (dget d k).isSome then
    d.map (fun p => if p.1 = k then (k, v) else p)
  else
    d ++ [(k, v)]

/-- Python truthiness of a JSON value (`if x:`). -/
def pyTruthy : JValue → Bool
  | JValue.null => false
  | JValue.bool b => b
  | JValue.num n => n != 0
  | JValue.str s => s != ""
  | JValue.arr elems => !elems.isEmpty
  | JValue.obj fields => !fields.isEmpty

/-- Python truthiness of an optional JSON value, where `none` models the
Python value `None`. -/
def pyTruthyOpt : Option JValue → Bool
  | none => false
  | some v => pyTruthy v

/-- Python `x or y` on optional JSON values: `x` when truthy, else `y`. -/
def pyOrOpt (x y : Option JValue) : Option JValue :=
  if pyTruthyOpt x then x else y

/-- Python truthiness of an optional string (`if s:` where `s` is `None` or
a `str`). -/
def strTruthy : Option String → Bool
  | none => false
  | some s => s != ""

/-- Python `x or y` on optional strings. -/
def pyOrStr (x y : Option String) : Option String :=
  if strTruthy x then x else y

mutual

/-- Python `repr()` of a JSON value, as used by `str()` on containers. -/
def pyRepr : JValue → String
  | JValue.null => "None"
  | JValue.bool true => "True"
  | JValue.bool false => "False"
  | JValue.num n => toString n
  | JValue.str s => "\x27" ++ s ++ "\x27"
  | JValue.arr elems => "[" ++ pyReprElems elems ++ "]"
  | JValue.obj fields => "\x7b" ++ pyReprFields fields ++ "\x7d"

/-- Comma-separated reprs of the elements of a Python list. -/
def pyReprElems : List JValue → String
  | [] => ""
  | [v] => pyRepr v
  | v :: rest => pyRepr v ++ ", " ++ pyReprElems rest

/-- Comma-separated reprs of the entries of a Python dictionary. -/
def pyReprFields : List (String × JValue) → String
  | [] => ""
  | [(k, v)] => "\x27" ++ k ++ "\x27: " ++ pyRepr v
  | (k, v) :: rest => "\x27" ++ k ++ "\x27: " ++ pyRepr v ++ ", " ++ pyReprFields rest

end

/-- Python `str()` of a JSON value, as interpolated by an f-string such as
the one building `source_url`.  `str()` of a string is the string itself;
every other value renders as its repr (for `None`, `True`, `False` and
integers the repr coincides with their usual text form). -/
def pyStr : JValue → String
  | JValue.str s => s
  | v => pyRepr v

/-- Process environment, as consulted by `os.getenv`: an association list of
variable names to values. -/
abbrev EnvMap := List (String × String)

/-- Python `os.getenv(k)`: `some v` when the variable is set (possibly to the
empty string), `none` when unset. -/
def lookupEnv (env : EnvMap) (k : String) : Option String :=
  List.lookup k env

/-- Parsed contents of the local `city_scraper.json` file: a mapping from
city identifier to that city's configuration object.  `none` models every
path on which `_load_city_config` ends with an empty configuration for file
reasons: the file is missing, its JSON is malformed (logged as an error), or
reading raises some other exception (logged as a warning). -/
abbrev CityConfigs := List (String × Dict)

/-- Python `city.upper()`: uppercase each character.  This is the semantics
of `String.toUpper`, written as a structural map over the character list so
that it evaluates on concrete city identifiers. -/
def pyUpper (s : String) : String :=
  String.mk (s.data.map Char.toUpper)

/-- Environment variable name for the per-city token: the literal template
of the source interpolating the uppercased city identifier. -/
def city_env_var (city : String) : String :=
  "LEGISTAR_" ++ pyUpper city ++ "_TOKEN"

/-- Message of the `ValueError` raised by the constructor when a required
token is missing.  The concatenation mirrors the adjacent f-string literals
of the source; the final literal is split so that the file name can be
isolated as a substring. -/
def required_token_msg (city : String) : String :=
  "API token is required for " ++ city ++ " but none was provided. Set " ++
    city_env_var city ++ " environment variable or add token to " ++ "city_scraper.json"

/-- The scraper object: the fields assigned by `LegistarScraper.__init__`
(the `requests.Session` is omitted; HTTP is modelled by an oracle passed to
the fetch method). -/
structure LegistarScraper where
  city : String
  base_url : String
  city_config : Dict
  api_token : Option JValue

/-- Embedding of `LegistarScraper._load_city_config`: the configuration for
`city` found in `city_scraper.json`, or an empty dictionary when the file is
absent/unreadable/malformed or has no entry for the city
(`city_configs.get(city, {})`). -/
def load_city_config (file : Option CityConfigs) (city : String) : Dict :=
  match file with
  | none => []
  | some city_configs => (List.lookup city city_configs).getD []

/-- Embedding of `LegistarScraper._load_city_token`: first the per-city
environment variable (used when set and non-empty, per `if env_token:`),
then the `token` entry of the configuration file (used when truthy, per
`if token:`), else `None`. -/
def load_city_token (env : EnvMap) (file : Option CityConfigs) (city : String) : Option JValue :=
  if strTruthy (lookupEnv env (city_env_var city)) then
    (lookupEnv env (city_env_var city)).map JValue.str
  else if pyTruthyOpt (dget (load_city_config file city) "token") then
    dget (load_city_config file city) "token"
  else
    none

/-- The token resolution performed by the constructor line
`self.api_token = api_token or self._load_city_token(city)`. -/
def resolve_token (env : EnvMap) (file : Option CityConfigs) (city : String)
    (api_token : Option String) : Option JValue :=
  pyOrOpt (api_token.map JValue.str) (load_city_token env file city)

/-- Embedding of `LegistarScraper.__init__`.  The constructor takes no HTTP
oracle: the source issues no request during construction (it only creates a
`requests.Session`), so the required-token `ValueError` is necessarily
raised before any network call is possible.  `Except.error` models the
raised `ValueError`. -/
def LegistarScraper.init (env : EnvMap) (file : Option CityConfigs) (city : String)
    (api_token : Option String) : Except String LegistarScraper :=
  if pyTruthy (dgetD (load_city_config file city) "token_required" (JValue.bool false))
      && !pyTruthyOpt (resolve_token env file city api_token) then
    Except.error (required_token_msg city)
  else
    Except.ok
      { city := city
        base_url := "https://webapi.legistar.com/v1/" ++ city
        city_config := load_city_config file city
        api_token := resolve_token env file city api_token }

/-- A single outgoing HTTP GET request: its URL and query parameters. -/
structure Request where
  url : String
  params : Dict

/-- The exceptions the scrape path can surface: `requests.exceptions.
RequestException` (connection failure, timeout, or the non-2xx status turned
into an exception by `raise_for_status`) and `json.JSONDecodeError` from
`response.json()`, whose payloads are the exception message, and the
`AttributeError` raised by calling `.get` on a raw record that is not a
dictionary (its runtime-generated message is not modelled). -/
inductive PyError where
  | requestException (msg : String) : PyError
  | jsonDecodeError (msg : String) : PyError
  | attributeError : PyError

/-- Outcome of one HTTP GET as observed by `fetch_recent_matters`: either a
parsed JSON array body, or a raised exception. -/
inductive HttpOutcome where
  | ok (body : List JValue) : HttpOutcome
  | error (e : PyError) : HttpOutcome

/-- Embedding of `LegistarScraper._add_token_to_params`: adds the resolved
token under the key `token` when the scraper holds a truthy token
(`if self.api_token:`). -/
def LegistarScraper.add_token_to_params (s : LegistarScraper) (params : Dict) : Dict :=
  match s.api_token with
  | some tok => if pyTruthy tok then dset params "token" tok else params
  | none => params

/-- The request built by `fetch_recent_matters`: the URL is the base URL
followed by `/matters`, and
parameters `$top`, `$orderby` plus the optional token. -/
def LegistarScraper.fetch_request (s : LegistarScraper) (limit : Int) : Request :=
  { url := s.base_url ++ "/matters"
    params := s.add_token_to_params
      (dset (dset [] "$top" (JValue.num limit)) "$orderby" (JValue.str "MatterIntroDate desc")) }

/-- Embedding of `LegistarScraper.fetch_recent_matters`.  `http` is the
network oracle standing for `self.session.get` composed with
`raise_for_status` and `response.json()`.  The second component of the
result records every request issued during the call.  Both `except` branches
of the source re-raise the caught exception unchanged. -/
def LegistarScraper.fetch_recent_matters (s : LegistarScraper) (http : Request → HttpOutcome)
    (limit : Int) : Except PyError (List JValue) × List Request :=
  match http (s.fetch_request limit) with
  | HttpOutcome.ok body => (Except.ok body, [s.fetch_request limit])
  | HttpOutcome.error e => (Except.error e, [s.fetch_request limit])

/-- Embedding of `LegistarScraper.extract_matter_info`.  `now` is the text
produced by `datetime.utcnow().isoformat()` at the moment of the call.  The
pairs appear in the order of the dictionary literal of the source; a raw
field that is absent (or holds JSON null) contributes `JValue.null`, exactly
as `matter.get(...)` yields `None`. -/
def LegistarScraper.extract_matter_info (s : LegistarScraper) (now : String)
    (matter : Dict) : Dict :=
  [("id", rget matter "MatterId"),
   ("file_number", rget matter "MatterFile"),
   ("name", rget matter "MatterName"),
   ("title", rget matter "MatterTitle"),
   ("type", rget matter "MatterTypeName"),
   ("status", rget matter "MatterStatusName"),
   ("intro_date", rget matter "MatterIntroDate"),
   ("agenda_date", rget matter "MatterAgendaDate"),
   ("passed_date", rget matter "MatterPassedDate"),
   ("enactment_date", rget matter "MatterEnactmentDate"),
   ("enactment_number", rget matter "MatterEnactmentNumber"),
   ("requester", rget matter "MatterRequester"),
   ("notes", rget matter "MatterNotes"),
   ("version", rget matter "MatterVersion"),
   ("text1", rget matter "MatterText1"),
   ("text2", rget matter "MatterText2"),
   ("text3", rget matter "MatterText3"),
   ("text4", rget matter "MatterText4"),
   ("text5", rget matter "MatterText5"),
   ("date_scraped", JValue.str now),
   ("source_url", JValue.str ("https://webapi.legistar.com/v1/" ++ s.city ++ "/matters/"
      ++ pyStr (rget matter "MatterId")))]

/-- One call of `extract_matter_info` inside the `try` block of
`scrape_and_process`.  On a JSON object the call succeeds (on a dictionary
no operation of `extract_matter_info` can raise); on any other element of
the fetched array the very first `matter.get(...)` raises an
`AttributeError`, modelled by `none`. -/
def LegistarScraper.try_extract_matter_info (s : LegistarScraper) (now : String) :
    JValue → Option Dict
  | JValue.obj fields => some (s.extract_matter_info now fields)
  | _ => none

/-- The `for matter in raw_matters:` loop of `scrape_and_process`.  Each
record is extracted inside `try` and appended on success.  When extraction
raises (the record is not a dictionary), the `except` handler runs, but its
log f-string evaluates `matter.get` with key MatterId and default unknown on
the same non-dictionary record: that raises a fresh `AttributeError` which
nothing catches, so the `continue` is never reached and the loop aborts,
discarding the records processed so far.  `now` models the clock during the
batch. -/
def LegistarScraper.process_matters (s : LegistarScraper) (now : String) :
    List JValue → Except PyError (List Dict)
  | [] => Except.ok []
  | m :: rest =>
    match s.try_extract_matter_info now m with
    | some processed =>
      match s.process_matters now rest with
      | Except.ok others => Except.ok (processed :: others)
      | Except.error e => Except.error e
    | none => Except.error PyError.attributeError

/-- Embedding of `LegistarScraper.scrape_and_process`: fetch, then the
per-record extraction loop.  An exception raised by the fetch propagates
(there is no handler around `fetch_recent_matters`), as does the
`AttributeError` escaping the loop body; the request trace of the fetch is
returned alongside. -/
def LegistarScraper.scrape_and_process (s : LegistarScraper) (http : Request → HttpOutcome)
    (now : String) (limit : Int) : Except PyError (List Dict) × List Request :=
  match s.fetch_recent_matters http limit with
  | (Except.ok raw_matters, reqs) => (s.process_matters now raw_matters, reqs)
  | (Except.error e, reqs) => (Except.error e, reqs)

/-- Timestamp pattern handed to `strftime` when the output filename is
derived automatically. -/
def auto_filename_time_pattern : String := "%Y%m%d_%H%M%S"

/-- Embedding of `LegistarScraper.save_to_json`.  `timestamp` is the text
produced by `datetime.now().strftime` with `auto_filename_time_pattern`.
The result pairs the filename the source returns with the list written to
that file (the `json.dump` serialization itself is outside the claims). -/
def LegistarScraper.save_to_json (s : LegistarScraper) (timestamp : String)
    (matters : List Dict) (filename : Option String) : String × List Dict :=
  match filename with
  | none => (s.city ++ "_matters_" ++ timestamp ++ ".json", matters)
  | some f => (f, matters)

/-- The CLI token resolution in `main`:
`args.token` or else the `LEGISTAR_API_TOKEN` environment variable, with
Python `or` truthiness.  The result is
the `api_token` argument `main` passes to the `LegistarScraper` constructor. -/
def main_api_token (args_token : Option String) (env : EnvMap) : Option String :=
  pyOrStr args_token (lookupEnv env "LEGISTAR_API_TOKEN")

/-- Substring relation used to state what an error message names. -/
def containsSubstr (s t : String) : Prop :=
  ∃ a b : String, s = a ++ t ++ b

/-- The scraper produced by constructing for city nyc with no explicit
token, an empty environment and no configuration file. -/
def nycScraper : LegistarScraper :=
  { city := "nyc"
    base_url := "https://webapi.legistar.com/v1/nyc"
    city_config := []
    api_token := none }

/-- The scraper produced by constructing for city nyc with the explicit
token test_token. -/
def tokScraper : LegistarScraper :=
  { city := "nyc"
    base_url := "https://webapi.legistar.com/v1/nyc"
    city_config := []
    api_token := some (JValue.str "test_token") }

/-- Network oracle whose every response is a JSON array of two empty
objects. -/
def httpTwoRecords : Request → HttpOutcome :=
  fun _ => HttpOutcome.ok [JValue.obj [], JValue.obj []]

/-- Network oracle returning one well-formed record followed by an element
that is not a JSON object, so that extracting the second record raises. -/
def httpMixed : Request → HttpOutcome :=
  fun _ => HttpOutcome.ok [JValue.obj [("MatterId", JValue.num 1)], JValue.str "bad"]

/-- Network oracle raising a connection-level RequestException on every
request. -/
def httpDown : Request → HttpOutcome :=
  fun _ => HttpOutcome.error (PyError.requestException "Network error")

/-- Network oracle answering every request with an empty JSON array. -/
def httpEmpty : Request → HttpOutcome :=
  fun _ => HttpOutcome.ok []

/-- When the extraction loop returns a list at all, that list has at most
one entry per raw record. -/
theorem process_matters_ok_length (s : LegistarScraper) (now : String) :
    ∀ (raws : List JValue) (res : List Dict),
      s.process_matters now raws = Except.ok res → res.length ≤ raws.length := by
  intro raws
  induction raws with
  | nil =>
    intro res h
    simp only [LegistarScraper.process_matters] at h
    injection h with h'
    subst h'
    exact Nat.le_refl 0
  | cons m rest ih =>
    intro res h
    simp only [LegistarScraper.process_matters] at h
    cases hm : s.try_extract_matter_info now m with
    | none =>
      rw [hm] at h
      exact Except.noConfusion h
    | some processed =>
      rw [hm] at h
      cases hr : s.process_matters now rest with
      | error e =>
        rw [hr] at h
        exact Except.noConfusion h
      | ok others =>
        rw [hr] at h
        injection h with h'
        subst h'
        exact Nat.succ_le_succ (ih others hr)

/-- When the network oracle answers with a parsed body, `scrape_and_process`
is the extraction loop over that body, with the single fetch request
traced. -/
theorem scrape_ok_fetch (s : LegistarScraper) (http : Request → HttpOutcome)
    (now : String) (limit : Int) (raws : List JValue)
    (h : http (s.fetch_request limit) = HttpOutcome.ok raws) :
    s.scrape_and_process http now limit
      = (s.process_matters now raws, [s.fetch_request limit]) := by
  have hfetch : s.fetch_recent_matters http limit
      = (Except.ok raws, [s.fetch_request limit]) := by
    unfold LegistarScraper.fetch_recent_matters
    rw [h]
  unfold LegistarScraper.scrape_and_process
  rw [hfetch]

/-- Truthiness of an optional value unfolded to an existential. -/
theorem pyTruthyOpt_true_iff (x : Option JValue) :
    pyTruthyOpt x = true ↔ ∃ v, x = some v ∧ pyTruthy v = true := by
  cases x <;> simp [pyTruthyOpt]

/-- `_load_city_token` never produces a falsy token: it returns `None` or a
truthy value. -/
theorem load_city_token_none_or_truthy (env : EnvMap) (file : Option CityConfigs)
    (city : String) :
    load_city_token env file city = none
    ∨ ∃ v, load_city_token env file city = some v ∧ pyTruthy v = true := by
  unfold load_city_token
  split_ifs with h1 h2
  · cases henv : lookupEnv env (city_env_var city) with
    | none => rw [henv] at h1; simp [strTruthy] at h1
    | some t =>
      right
      refine ⟨JValue.str t, rfl, ?_⟩
      rw [henv] at h1
      simpa [strTruthy, pyTruthy] using h1
  · rcases (pyTruthyOpt_true_iff _).mp h2 with ⟨v, hv, htv⟩
    right; exact ⟨v, hv, htv⟩
  · left; rfl

/-- The constructor resolves either no token at all or a truthy one. -/
theorem resolve_token_none_or_truthy (env : EnvMap) (file : Option CityConfigs)
    (city : String) (api_token : Option String) :
    resolve_token env file city api_token = none
    ∨ ∃ v, resolve_token env file city api_token = some v ∧ pyTruthy v = true := by
  unfold resolve_token pyOrOpt
  split_ifs with h
  · rcases (pyTruthyOpt_true_iff _).mp h with ⟨v, hv, htv⟩
    right; exact ⟨v, hv, htv⟩
  · exact load_city_token_none_or_truthy env file city

/-- A successfully constructed scraper carries exactly the token resolved by
the precedence chain. -/
theorem init_ok_api_token (env : EnvMap) (file : Option CityConfigs) (city : String)
    (tok : Option String) (s : LegistarScraper)
    (h : LegistarScraper.init env file city tok = Except.ok s) :
    s.api_token = resolve_token env file city tok := by
  unfold LegistarScraper.init at h
  split at h
  · exact Except.noConfusion h
  · injection h with h'
    subst h'
    rfl

/-- Every call of `fetch_recent_matters` issues exactly the one request it
built, whatever the network outcome. -/
theorem fetch_requests_eq (s : LegistarScraper) (http : Request → HttpOutcome) (limit : Int) :
    (s.fetch_recent_matters http limit).2 = [s.fetch_request limit] := by
  unfold LegistarScraper.fetch_recent_matters
  cases http (s.fetch_request limit) <;> rfl

/-- C1, counterexample: the claim counts twenty fields, but the normalized
record always carries twenty-one keys; extracting the empty raw record
exhibits this at a concrete input. -/
theorem extract_field_count_cex :
    ((nycScraper.extract_matter_info "2024-01-01T12:00:00" []).map Prod.fst).length = 21
    ∧ ((nycScraper.extract_matter_info "2024-01-01T12:00:00" []).map Prod.fst).length ≠ 20 :=
  ⟨rfl, by decide⟩

/-- C1, amended: for every scraper, timestamp and JSON-object raw record,
`extract_matter_info` returns a record whose keys are exactly the twenty-one
fields id, file_number, name, title, type, status, intro_date, agenda_date,
passed_date, enactment_date, enactment_number, requester, notes, version,
text1..text5, date_scraped, source_url, in that order; each of the first
nineteen equals the corresponding raw field value, or null when that raw
field is absent; and the call never raises for any JSON object, including
one containing only an identifier (the guarded extraction succeeds on every
JSON object). -/
theorem extract_matter_info_fields (s : LegistarScraper) (now : String) (matter : Dict) :
    (s.extract_matter_info now matter).map Prod.fst
      = ["id", "file_number", "name", "title", "type", "status", "intro_date",
         "agenda_date", "passed_date", "enactment_date", "enactment_number",
         "requester", "notes", "version", "text1", "text2", "text3", "text4",
         "text5", "date_scraped", "source_url"]
    ∧ dget (s.extract_matter_info now matter) "id" = some (rget matter "MatterId")
    ∧ dget (s.extract_matter_info now matter) "file_number" = some (rget matter "MatterFile")
    ∧ dget (s.extract_matter_info now matter) "name" = some (rget matter "MatterName")
    ∧ dget (s.extract_matter_info now matter) "title" = some (rget matter "MatterTitle")
    ∧ dget (s.extract_matter_info now matter) "type" = some (rget matter "MatterTypeName")
    ∧ dget (s.extract_matter_info now matter) "status" = some (rget matter "MatterStatusName")
    ∧ dget (s.extract_matter_info now matter) "intro_date" = some (rget matter "MatterIntroDate")
    ∧ dget (s.extract_matter_info now matter) "agenda_date"
        = some (rget matter "MatterAgendaDate")
    ∧ dget (s.extract_matter_info now matter) "passed_date"
        = some (rget matter "MatterPassedDate")
    ∧ dget (s.extract_matter_info now matter) "enactment_date"
        = some (rget matter "MatterEnactmentDate")
    ∧ dget (s.extract_matter_info now matter) "enactment_number"
        = some (rget matter "MatterEnactmentNumber")
    ∧ dget (s.extract_matter_info now matter) "requester" = some (rget matter "MatterRequester")
    ∧ dget (s.extract_matter_info now matter) "notes" = some (rget matter "MatterNotes")
    ∧ dget (s.extract_matter_info now matter) "version" = some (rget matter "MatterVersion")
    ∧ dget (s.extract_matter_info now matter) "text1" = some (rget matter "MatterText1")
    ∧ dget (s.extract_matter_info now matter) "text2" = some (rget matter "MatterText2")
    ∧ dget (s.extract_matter_info now matter) "text3" = some (rget matter "MatterText3")
    ∧ dget (s.extract_matter_info now matter) "text4" = some (rget matter "MatterText4")
    ∧ dget (s.extract_matter_info now matter) "text5" = some (rget matter "MatterText5")
    ∧ (∀ fields : Dict, s.try_extract_matter_info now (JValue.obj fields)
        = some (s.extract_matter_info now fields)) :=
  ⟨rfl, rfl, rfl, rfl, rfl, rfl, rfl, rfl, rfl, rfl, rfl, rfl, rfl, rfl, rfl,
   rfl, rfl, rfl, rfl, rfl, fun _ => rfl⟩

/-- C8: with no filename supplied, `save_to_json` derives the filename
city_matters_timestamp.json from the city identifier and the current local
time rendered with `auto_filename_time_pattern`, and returns it; with a
filename supplied, that filename is used and returned. -/
theorem save_to_json_filename (s : LegistarScraper) (timestamp : String)
    (matters : List Dict) :
    s.save_to_json timestamp matters none
      = (s.city ++ "_matters_" ++ timestamp ++ ".json", matters)
    ∧ ∀ f : String, s.save_to_json timestamp matters (some f) = (f, matters) :=
  ⟨rfl, fun _ => rfl⟩

/-- C10: extracting a raw record that lacks MatterId still succeeds, the id
field of the result is null, and source_url embeds the literal text None
where the matter identifier belongs. -/
theorem extract_missing_id (s : LegistarScraper) (now : String) (matter : Dict)
    (h : dget matter "MatterId" = none) :
    dget (s.extract_matter_info now matter) "id" = some JValue.null
    ∧ dget (s.extract_matter_info now matter) "source_url"
        = some (JValue.str ("https://webapi.legistar.com/v1/" ++ s.city ++ "/matters/None")) := by
  have hid : rget matter "MatterId" = JValue.null := by
    unfold rget
    rw [h]
    rfl
  constructor
  · show some (rget matter "MatterId") = some JValue.null
    rw [hid]
  · show some (JValue.str (("https://webapi.legistar.com/v1/" ++ s.city ++ "/matters/")
        ++ pyStr (rget matter "MatterId")))
      = some (JValue.str (("https://webapi.legistar.com/v1/" ++ s.city) ++ "/matters/None"))
    rw [hid]
    show some (JValue.str ((("https://webapi.legistar.com/v1/" ++ s.city) ++ "/matters/")
        ++ "None")) = _
    rw [String.append_assoc]
    rfl

/-- C10, witness: the empty raw record lacks MatterId, and extraction for
city nyc produces a null id and the None-embedding source URL. -/
theorem extract_missing_id_witness :
    dget (nycScraper.extract_matter_info "2024-01-01T12:00:00" []) "id" = some JValue.null
    ∧ dget (nycScraper.extract_matter_info "2024-01-01T12:00:00" []) "source_url"
        = some (JValue.str ("https://webapi.legistar.com/v1/" ++ "nyc" ++ "/matters/None")) :=
  extract_missing_id nycScraper "2024-01-01T12:00:00" [] rfl

/-- C2, counterexample: `scrape_and_process` does not truncate to the
requested limit: when the fetch step returns two extractable raw records for
a call with limit 1, the returned list has two elements, so its length is
not at most the limit. -/
theorem scrape_limit_cex :
    LegistarScraper.init [] none "nyc" none = Except.ok nycScraper
    ∧ (nycScraper.scrape_and_process httpTwoRecords "2024-01-01T12:00:00" 1).1
        = Except.ok [nycScraper.extract_matter_info "2024-01-01T12:00:00" [],
            nycScraper.extract_matter_info "2024-01-01T12:00:00" []]
    ∧ ¬ ([nycScraper.extract_matter_info "2024-01-01T12:00:00" [],
          nycScraper.extract_matter_info "2024-01-01T12:00:00" []].length ≤ 1) :=
  ⟨rfl, rfl, by decide⟩

/-- C2, amended: whenever `scrape_and_process` returns a list at all, that
list is the output of the extraction loop on the fetched records, so its
length is at most the number of raw records the fetch step returned, and at
most the requested limit whenever the fetch step returned at most limit
records.  The code itself never truncates, and a fetched record that fails
extraction makes the call raise instead of returning a list. -/
theorem scrape_length_bound (s : LegistarScraper) (http : Request → HttpOutcome)
    (now : String) (limit : Int) (raws : List JValue) (res : List Dict)
    (h : http (s.fetch_request limit) = HttpOutcome.ok raws)
    (hres : (s.scrape_and_process http now limit).1 = Except.ok res) :
    s.process_matters now raws = Except.ok res
    ∧ res.length ≤ raws.length
    ∧ ((raws.length : Int) ≤ limit → (res.length : Int) ≤ limit) := by
  have hp : s.process_matters now raws = Except.ok res := by
    rw [scrape_ok_fetch s http now limit raws h] at hres
    exact hres
  have hl := process_matters_ok_length s now raws res hp
  exact ⟨hp, hl, fun hle => by omega⟩

/-- C2, witness of the amended statement at a concrete input: two raw
records fetched with limit 5, extraction returning both. -/
theorem scrape_length_bound_witness :
    nycScraper.process_matters "2024-01-01T12:00:00" [JValue.obj [], JValue.obj []]
      = Except.ok [nycScraper.extract_matter_info "2024-01-01T12:00:00" [],
          nycScraper.extract_matter_info "2024-01-01T12:00:00" []]
    ∧ [nycScraper.extract_matter_info "2024-01-01T12:00:00" [],
        nycScraper.extract_matter_info "2024-01-01T12:00:00" []].length
        ≤ ([JValue.obj [], JValue.obj []] : List JValue).length
    ∧ (([nycScraper.extract_matter_info "2024-01-01T12:00:00" [],
        nycScraper.extract_matter_info "2024-01-01T12:00:00" []].length : Int) ≤ 5) := by
  have h := scrape_length_bound nycScraper httpTwoRecords "2024-01-01T12:00:00" 5
    [JValue.obj [], JValue.obj []]
    [nycScraper.extract_matter_info "2024-01-01T12:00:00" [],
     nycScraper.extract_matter_info "2024-01-01T12:00:00" []] rfl rfl
  exact ⟨h.1, h.2.1, h.2.2 (by decide)⟩

/-- C5: the code does not implement the claimed skip-and-continue policy on
any input that can actually fail.  At the failing input (one well-formed
record followed by a raw element that is not a JSON object, fetched with
limit 2) the except handler itself raises, so `scrape_and_process` aborts
with an `AttributeError` and returns no list at all, instead of returning
the first record's extraction as the claim says. -/
theorem scrape_abort_on_bad_record :
    (nycScraper.scrape_and_process httpMixed "2024-01-01T12:00:00" 2).1
      = Except.error PyError.attributeError := rfl

/-- C6: when the network oracle raises (a transport-level RequestException
or a JSON decode error, the two constructors of `PyError`),
`fetch_recent_matters` re-raises the very same error unchanged, and its
request trace has length one: exactly one HTTP call, no retry. -/
theorem fetch_error_propagation (s : LegistarScraper) (http : Request → HttpOutcome)
    (limit : Int) (e : PyError)
    (h : http (s.fetch_request limit) = HttpOutcome.error e) :
    s.fetch_recent_matters http limit = (Except.error e, [s.fetch_request limit])
    ∧ (s.fetch_recent_matters http limit).2.length = 1 := by
  have hfr : s.fetch_recent_matters http limit
      = (Except.error e, [s.fetch_request limit]) := by
    unfold LegistarScraper.fetch_recent_matters
    rw [h]
  refine ⟨hfr, ?_⟩
  rw [hfr]
  rfl

/-- C6, witness: a connection-level failure propagates unchanged with a
single request issued. -/
theorem fetch_error_propagation_witness :
    nycScraper.fetch_recent_matters httpDown 5
      = (Except.error (PyError.requestException "Network error"), [nycScraper.fetch_request 5])
    ∧ (nycScraper.fetch_recent_matters httpDown 5).2.length = 1 :=
  fetch_error_propagation nycScraper httpDown 5 (PyError.requestException "Network error") rfl

/-- Configuration file used to exercise the required-token failure: city
gotham requires a token and provides none. -/
def gothamFile : CityConfigs := [("gotham", [("token_required", JValue.bool true)])]

/-- C3: when the loaded configuration marks the token required and no token
resolves from the explicit argument, the per-city environment variable or
the configuration file, construction fails with the ValueError whose message
names the city, the per-city environment variable, and the
configuration-file alternative.  The constructor is not given the network
oracle at all (the source issues no request in it), so the failure
necessarily precedes any network call. -/
theorem required_token_error (env : EnvMap) (file : Option CityConfigs) (city : String)
    (api_token : Option String)
    (hreq : pyTruthy (dgetD (load_city_config file city) "token_required"
      (JValue.bool false)) = true)
    (hnone : resolve_token env file city api_token = none) :
    LegistarScraper.init env file city api_token = Except.error (required_token_msg city)
    ∧ containsSubstr (required_token_msg city) city
    ∧ containsSubstr (required_token_msg city) (city_env_var city)
    ∧ containsSubstr (required_token_msg city) "city_scraper.json" := by
  refine ⟨?_, ?_, ?_, ?_⟩
  · unfold LegistarScraper.init
    rw [hreq, hnone]
    rfl
  · refine ⟨"API token is required for ",
      " but none was provided. Set " ++ city_env_var city
        ++ " environment variable or add token to " ++ "city_scraper.json", ?_⟩
    unfold required_token_msg
    simp [String.append_assoc]
  · refine ⟨"API token is required for " ++ city ++ " but none was provided. Set ",
      " environment variable or add token to " ++ "city_scraper.json", ?_⟩
    unfold required_token_msg
    simp [String.append_assoc]
  · refine ⟨"API token is required for " ++ city ++ " but none was provided. Set "
        ++ city_env_var city ++ " environment variable or add token to ", "", ?_⟩
    unfold required_token_msg
    simp [String.append_assoc]

/-- C3, witness: constructing for city gotham, whose configuration requires
a token, with no argument, empty environment and no token in the file. -/
theorem required_token_error_witness :
    LegistarScraper.init [] (some gothamFile) "gotham" none
      = Except.error (required_token_msg "gotham")
    ∧ containsSubstr (required_token_msg "gotham") "gotham"
    ∧ containsSubstr (required_token_msg "gotham") (city_env_var "gotham")
    ∧ containsSubstr (required_token_msg "gotham") "city_scraper.json" :=
  required_token_error [] (some gothamFile) "gotham" none rfl rfl

/-- C4, counterexample: an explicit constructor argument that is present but
empty is not the resolved token; with the argument being the empty string
and the per-city environment variable set, resolution yields the
environment value rather than the argument value. -/
theorem resolve_token_empty_arg_cex :
    resolve_token [("LEGISTAR_NYC_TOKEN", "env_token")] none "nyc" (some "")
      = some (JValue.str "env_token")
    ∧ resolve_token [("LEGISTAR_NYC_TOKEN", "env_token")] none "nyc" (some "")
      ≠ some (JValue.str "") := by
  refine ⟨rfl, ?_⟩
  show some (JValue.str "env_token") ≠ some (JValue.str "")
  intro hcontra
  injection hcontra with h1
  injection h1 with h2
  exact absurd h2 (by decide)

/-- C4, amended: resolution precedence with Python truthiness, highest
first: a non-empty explicit constructor argument; otherwise the per-city
environment variable when set and non-empty; otherwise the
configuration-file token when truthy; otherwise absent.  An empty explicit
argument or environment value, or a falsy configuration value, is treated as
absent at its level. -/
theorem resolve_token_precedence (env : EnvMap) (file : Option CityConfigs) (city : String) :
    (∀ t : String, t ≠ "" → resolve_token env file city (some t) = some (JValue.str t))
    ∧ (∀ a : Option String, (a = none ∨ a = some "") →
        ∀ e : String, lookupEnv env (city_env_var city) = some e → e ≠ "" →
          resolve_token env file city a = some (JValue.str e))
    ∧ (∀ a : Option String, (a = none ∨ a = some "") →
        (lookupEnv env (city_env_var city) = none
          ∨ lookupEnv env (city_env_var city) = some "") →
        ∀ v : JValue, dget (load_city_config file city) "token" = some v →
          pyTruthy v = true → resolve_token env file city a = some v)
    ∧ (∀ a : Option String, (a = none ∨ a = some "") →
        (lookupEnv env (city_env_var city) = none
          ∨ lookupEnv env (city_env_var city) = some "") →
        pyTruthyOpt (dget (load_city_config file city) "token") = false →
          resolve_token env file city a = none) := by
  have harg : ∀ a : Option String, (a = none ∨ a = some "") →
      resolve_token env file city a = load_city_token env file city := by
    intro a ha
    rcases ha with h | h <;> subst h <;>
      simp [resolve_token, pyOrOpt, pyTruthyOpt, pyTruthy]
  have henvF : (lookupEnv env (city_env_var city) = none
      ∨ lookupEnv env (city_env_var city) = some "") →
      load_city_token env file city
        = if pyTruthyOpt (dget (load_city_config file city) "token") then
            dget (load_city_config file city) "token"
          else none := by
    intro he
    unfold load_city_token
    rcases he with h | h <;> rw [h] <;> simp [strTruthy]
  refine ⟨?_, ?_, ?_, ?_⟩
  · intro t ht
    simp [resolve_token, pyOrOpt, pyTruthyOpt, pyTruthy, ht]
  · intro a ha e he hne
    rw [harg a ha]
    unfold load_city_token
    rw [he]
    simp [strTruthy, hne]
  · intro a ha henv v hv htv
    rw [harg a ha, henvF henv, hv]
    simp [pyTruthyOpt, htv]
  · intro a ha henv hf
    rw [harg a ha, henvF henv, hf]
    simp

/-- C4, witness of the amended statement: one concrete input per precedence
level. -/
theorem resolve_token_precedence_witness :
    resolve_token [] (some [("nyc", [("token", JValue.str "cfg_token")])]) "nyc"
        (some "arg_token") = some (JValue.str "arg_token")
    ∧ resolve_token [("LEGISTAR_NYC_TOKEN", "env_token")] none "nyc" none
        = some (JValue.str "env_token")
    ∧ resolve_token [] (some [("nyc", [("token", JValue.str "cfg_token")])]) "nyc" none
        = some (JValue.str "cfg_token")
    ∧ resolve_token [] none "nyc" none = none := by
  refine ⟨?_, ?_, ?_, ?_⟩
  · exact (resolve_token_precedence []
      (some [("nyc", [("token", JValue.str "cfg_token")])]) "nyc").1 "arg_token" (by decide)
  · exact (resolve_token_precedence [("LEGISTAR_NYC_TOKEN", "env_token")] none "nyc").2.1
      none (Or.inl rfl) "env_token" rfl (by decide)
  · exact (resolve_token_precedence []
      (some [("nyc", [("token", JValue.str "cfg_token")])]) "nyc").2.2.1
      none (Or.inl rfl) (Or.inl rfl) (JValue.str "cfg_token") rfl rfl
  · exact (resolve_token_precedence [] none "nyc").2.2.2 none (Or.inl rfl) (Or.inl rfl) rfl

/-- C7: for a scraper obtained from the constructor, any call of
`fetch_recent_matters` issues exactly one GET, to base_url/matters, whose
parameter set carries top equal to the limit and orderby equal to the
literal MatterIntroDate desc; and the parameter set holds the key token
exactly when a token was resolved at construction, with that resolved value
(the final equation gives both directions of the iff, since the constructor
only ever stores no token or a truthy one). -/
theorem fetch_request_shape (env : EnvMap) (file : Option CityConfigs) (city : String)
    (tok : Option String) (s : LegistarScraper) (http : Request → HttpOutcome) (limit : Int)
    (h : LegistarScraper.init env file city tok = Except.ok s) :
    (s.fetch_recent_matters http limit).2 = [s.fetch_request limit]
    ∧ (s.fetch_request limit).url = s.base_url ++ "/matters"
    ∧ dget (s.fetch_request limit).params "$top" = some (JValue.num limit)
    ∧ dget (s.fetch_request limit).params "$orderby"
        = some (JValue.str "MatterIntroDate desc")
    ∧ dget (s.fetch_request limit).params "token" = s.api_token := by
  have htok := init_ok_api_token env file city tok s h
  have hcase : s.api_token = none
      ∨ ∃ v, s.api_token = some v ∧ pyTruthy v = true := by
    rw [htok]
    exact resolve_token_none_or_truthy env file city tok
  refine ⟨fetch_requests_eq s http limit, rfl, ?_⟩
  rcases hcase with hstok | ⟨v, hstok, hv⟩
  · have hreq : (s.fetch_request limit).params
        = [("$top", JValue.num limit), ("$orderby", JValue.str "MatterIntroDate desc")] := by
      simp [LegistarScraper.fetch_request, LegistarScraper.add_token_to_params,
        hstok, dset, dget]
    rw [hstok]
    refine ⟨?_, ?_, ?_⟩ <;> rw [hreq] <;> rfl
  · have hreq : (s.fetch_request limit).params
        = [("$top", JValue.num limit), ("$orderby", JValue.str "MatterIntroDate desc"),
           ("token", v)] := by
      simp [LegistarScraper.fetch_request, LegistarScraper.add_token_to_params,
        hstok, hv, dset, dget]
    rw [hstok]
    refine ⟨?_, ?_, ?_⟩ <;> rw [hreq] <;> rfl

/-- C7, witness: a scraper constructed with the explicit token test_token
issues one request with the three parameters, the token parameter holding
the resolved token. -/
theorem fetch_request_shape_witness :
    (tokScraper.fetch_recent_matters httpEmpty 1).2 = [tokScraper.fetch_request 1]
    ∧ (tokScraper.fetch_request 1).url = tokScraper.base_url ++ "/matters"
    ∧ dget (tokScraper.fetch_request 1).params "$top" = some (JValue.num 1)
    ∧ dget (tokScraper.fetch_request 1).params "$orderby"
        = some (JValue.str "MatterIntroDate desc")
    ∧ dget (tokScraper.fetch_request 1).params "token" = tokScraper.api_token :=
  fetch_request_shape [] none "nyc" (some "test_token") tokScraper httpEmpty 1 rfl

/-- C9, counterexample: when the explicit token argument is supplied as the
empty string and the generic environment variable is set, the CLI passes the
environment value, not the explicit argument value, into construction. -/
theorem main_token_empty_arg_cex :
    main_api_token (some "") [("LEGISTAR_API_TOKEN", "env_token")] = some "env_token"
    ∧ main_api_token (some "") [("LEGISTAR_API_TOKEN", "env_token")] ≠ some "" := by
  refine ⟨rfl, ?_⟩
  show some "env_token" ≠ some ""
  intro hcontra
  injection hcontra with h1
  exact absurd h1 (by decide)

/-- C9, amended: the CLI token handed to Scraper Core construction is the
explicit token argument when that argument is non-empty; an absent or empty
explicit argument falls back to the value of the generic LEGISTAR_API_TOKEN
environment variable (absent when the variable is unset). -/
theorem main_token_precedence (env : EnvMap) :
    (∀ t : String, t ≠ "" → main_api_token (some t) env = some t)
    ∧ main_api_token none env = lookupEnv env "LEGISTAR_API_TOKEN"
    ∧ main_api_token (some "") env = lookupEnv env "LEGISTAR_API_TOKEN" := by
  refine ⟨?_, rfl, rfl⟩
  intro t ht
  simp [main_api_token, pyOrStr, strTruthy, ht]

/-- C9, witness of the amended statement: a non-empty explicit argument
beats the set environment variable; without it the environment value is
passed. -/
theorem main_token_precedence_witness :
    main_api_token (some "cli_token") [("LEGISTAR_API_TOKEN", "env_token")]
      = some "cli_token"
    ∧ main_api_token none [("LEGISTAR_API_TOKEN", "env_token")]
        = lookupEnv [("LEGISTAR_API_TOKEN", "env_token")] "LEGISTAR_API_TOKEN"
    ∧ main_api_token (some "") [("LEGISTAR_API_TOKEN", "env_token")]
        = lookupEnv [("LEGISTAR_API_TOKEN", "env_token")] "LEGISTAR_API_TOKEN" := by
  have h := main_token_precedence [("LEGISTAR_API_TOKEN", "env_token")]
  exact ⟨h.1 "cli_token" (by decide), h.2.1, h.2.2⟩
